import Mathlib

/-!
Shallow embedding of the PurFacted Python SDK
(src/static/api/examples/python.py).

JSON values are modelled by an inductive `Json`; Python dictionaries by
association lists in insertion order, with `dictSet` (assignment) and
`dictGet` (`dict.get`).  The client's `_request` is split into the pure
request-shaping part (`PurFactedClient.requestOf`, producing the
`HttpRequest` handed to `session.request`) and the pure response-envelope
handling (`handleEnvelope`); the full call with a mocked transport is
`PurFactedClient.request`.  Each resource method of the client is embedded
as the `HttpRequest` it issues.
-/

/-- JSON values as parsed by `response.json()`; numbers are modelled as
integers (no claim involves fractional payloads). -/
inductive Json where
  | null
  | bool (b : Bool)
  | num (n : Int)
  | str (s : String)
  | arr (items : List Json)
  | obj (fields : List (String × Json))

/-- Python truthiness (`bool(v)`) of a JSON value. -/
def Json.truthy : Json → Bool
  | .null => false
  | .bool b => b
  | .num n => decide (n ≠ 0)
  | .str s => decide (s ≠ "")
  | .arr items => !items.isEmpty
  | .obj fields => !fields.isEmpty

/-- Truthiness of a value that may be absent: `dict.get` returns `None`
(falsy) for a missing key. -/
def truthyOpt : Option Json → Bool
  | none => false
  | some v => v.truthy

/-- `d[k] = v` on a Python dict kept as an association list in insertion
order: replace the existing binding, else append. -/
def dictSet (fields : List (String × Json)) (k : String) (v : Json) :
    List (String × Json) :=
  match fields with
  | [] => [(k, v)]
  | (k0, v0) :: rest =>
      if k0 = k then (k0, v) :: rest else (k0, v0) :: dictSet rest k v

/-- `d.get(k)`: the bound value, or `None` when the key is absent. -/
def dictGet (fields : List (String × Json)) (k : String) : Option Json :=
  match fields with
  | [] => none
  | (k0, v0) :: rest => if k0 = k then some v0 else dictGet rest k

/-- `d.get(k, default)`. -/
def dictGetD (fields : List (String × Json)) (k : String) (d : Json) : Json :=
  (dictGet fields k).getD d

mutual

/-- Python `repr` of a JSON value (string escaping inside container
reprs is not modelled; no envelope a claim touches nests strings with
quotes or escapes). -/
def Json.pyRepr : Json → String
  | .null => "None"
  | .bool true => "True"
  | .bool false => "False"
  | .num n => toString n
  | .str s => "\x27" ++ s ++ "\x27"
  | .arr items => "[" ++ Json.pyReprItems items ++ "]"
  | .obj fields => "\x7b" ++ Json.pyReprFields fields ++ "\x7d"

/-- Comma-separated reprs of a list's items. -/
def Json.pyReprItems : List Json → String
  | [] => ""
  | [v] => Json.pyRepr v
  | v :: rest => Json.pyRepr v ++ ", " ++ Json.pyReprItems rest

/-- Comma-separated `'key': repr` pairs of a dict's items. -/
def Json.pyReprFields : List (String × Json) → String
  | [] => ""
  | [(k, v)] => "\x27" ++ k ++ "\x27: " ++ Json.pyRepr v
  | (k, v) :: rest =>
      "\x27" ++ k ++ "\x27: " ++ Json.pyRepr v ++ ", " ++ Json.pyReprFields rest

end

/-- Python `str` of a JSON value, as an f-string formats it: a string
formats to itself, anything else to its repr. -/
def Json.pyStr : Json → String
  | .str s => s
  | v => v.pyRepr

/-- The `PurFactedError` exception: `self.code` and `self.message` keep
exactly the values passed to the constructor (Python annotates them `str`
but does not enforce it, and `_request` passes whatever the envelope
holds), and the exception's message is `f"{code}: {message}"`. -/
structure PurFactedError where
  code : Json
  message : Json

/-- The string passed to `super().__init__` — `str(e)` of the raised
exception. -/
def PurFactedError.exceptionText (e : PurFactedError) : String :=
  e.code.pyStr ++ ": " ++ e.message.pyStr

/-- Outcome of processing a parsed response envelope. -/
inductive RequestResult where
  | ok (envelope : Json)
  | apiError (e : PurFactedError)
  | attributeError

/-- The HTTP request handed to `self.session.request`. -/
structure HttpRequest where
  method : String
  url : String
  headers : List (String × String)
  params : Option (List (String × Json))
  json : Option Json

/-- Client state set up by `__init__`: the stored key and base URL. -/
structure PurFactedClient where
  api_key : String
  base_url : String

/-- `PurFactedClient(api_key, base_url=...)`. -/
def PurFactedClient.init (api_key : String)
    (base_url : String := "https://purfacted.com/api/v1") : PurFactedClient :=
  { api_key := api_key, base_url := base_url }

/-- The headers `__init__` installs on the session, attached to every
request the session issues. -/
def PurFactedClient.sessionHeaders (c : PurFactedClient) :
    List (String × String) :=
  [("X-API-Key", c.api_key), ("Content-Type", "application/json")]

/-- The request `_request` issues: URL is `f"{self.base_url}{endpoint}"`,
headers are the session's, and the `params=`/`json=` kwargs pass through. -/
def PurFactedClient.requestOf (c : PurFactedClient) (method endpoint : String)
    (params : Option (List (String × Json))) (json : Option Json) :
    HttpRequest :=
  { method := method, url := c.base_url ++ endpoint,
    headers := c.sessionHeaders, params := params, json := json }

/-- The envelope handling of `_request` on the parsed response object:
`if not data.get("success")` raise `PurFactedError` built from
`data.get("error", {})`, else return `data`.  Calling `.get` on a
non-dict `error` value is Python's `AttributeError`. -/
def handleEnvelope (data : List (String × Json)) : RequestResult :=
  if truthyOpt (dictGet data "success") then .ok (.obj data)
  else
    match dictGetD data "error" (Json.obj []) with
    | .obj errFields =>
        .apiError ⟨dictGetD errFields "code" (Json.str "UNKNOWN"),
                   dictGetD errFields "message" (Json.str "Unknown error")⟩
    | _ => .attributeError

/-- `_request` end to end against a transport that maps the issued
request to the parsed response object. -/
def PurFactedClient.request (c : PurFactedClient)
    (transport : HttpRequest → List (String × Json))
    (method endpoint : String) (params : Option (List (String × Json)))
    (json : Option Json) : RequestResult :=
  handleEnvelope (transport (c.requestOf method endpoint params json))

/-- The `if x: params[k] = x` idiom on an optional string argument:
added only when truthy (present and non-empty). -/
def addIfTruthyStr (params : List (String × Json)) (k : String)
    (x : Option String) : List (String × Json) :=
  match x with
  | none => params
  | some s => if s = "" then params else dictSet params k (Json.str s)

/-- The `if x is not None: params[k] = x` idiom: added whenever the
argument was provided, falsy or not. -/
def addIfNotNone (params : List (String × Json)) (k : String)
    (x : Option Json) : List (String × Json) :=
  match x with
  | none => params
  | some v => dictSet params k v

/-- `search_facts`: GET /facts with pagination and truthy-gated filters. -/
def PurFactedClient.search_facts (c : PurFactedClient)
    (q : Option String := none) (status : Option String := none)
    (category : Option String := none) (sort : Option String := none)
    (page : Int := 1) (limit : Int := 20) : HttpRequest :=
  let params : List (String × Json) :=
    [("page", Json.num page), ("limit", Json.num limit)]
  let params := addIfTruthyStr params "q" q
  let params := addIfTruthyStr params "status" status
  let params := addIfTruthyStr params "category" category
  let params := addIfTruthyStr params "sort" sort
  c.requestOf "GET" "/facts" (some params) none

/-- `get_fact`: GET /facts/{fact_id}. -/
def PurFactedClient.get_fact (c : PurFactedClient) (fact_id : String) :
    HttpRequest :=
  c.requestOf "GET" ("/facts/" ++ fact_id) none none

/-- `get_sources`: GET /sources; `factId`/`type` are truthy-gated,
`minCredibility` is gated on `is not None`. -/
def PurFactedClient.get_sources (c : PurFactedClient)
    (fact_id : Option String := none) (source_type : Option String := none)
    (min_credibility : Option Int := none)
    (page : Int := 1) (limit : Int := 20) : HttpRequest :=
  let params : List (String × Json) :=
    [("page", Json.num page), ("limit", Json.num limit)]
  let params := addIfTruthyStr params "factId" fact_id
  let params := addIfTruthyStr params "type" source_type
  let params := addIfNotNone params "minCredibility" (min_credibility.map Json.num)
  c.requestOf "GET" "/sources" (some params) none

/-- `get_source`: GET /sources/{source_id}. -/
def PurFactedClient.get_source (c : PurFactedClient) (source_id : String) :
    HttpRequest :=
  c.requestOf "GET" ("/sources/" ++ source_id) none none

/-- `get_categories`: GET /categories with truthy-gated filters and a
limit default of 50. -/
def PurFactedClient.get_categories (c : PurFactedClient)
    (q : Option String := none) (parent : Option String := none)
    (page : Int := 1) (limit : Int := 50) : HttpRequest :=
  let params : List (String × Json) :=
    [("page", Json.num page), ("limit", Json.num limit)]
  let params := addIfTruthyStr params "q" q
  let params := addIfTruthyStr params "parent" parent
  c.requestOf "GET" "/categories" (some params) none

/-- `get_category`: GET /categories/{category_id}. -/
def PurFactedClient.get_category (c : PurFactedClient) (category_id : String) :
    HttpRequest :=
  c.requestOf "GET" ("/categories/" ++ category_id) none none

/-- `get_category_tree`: GET /categories/tree. -/
def PurFactedClient.get_category_tree (c : PurFactedClient) : HttpRequest :=
  c.requestOf "GET" "/categories/tree" none none

/-- `get_trust_metrics`: GET /trust/{fact_id}. -/
def PurFactedClient.get_trust_metrics (c : PurFactedClient) (fact_id : String) :
    HttpRequest :=
  c.requestOf "GET" ("/trust/" ++ fact_id) none none

/-- `batch_trust_metrics`: POST /trust/batch with body `{"factIds": ids}`. -/
def PurFactedClient.batch_trust_metrics (c : PurFactedClient)
    (fact_ids : List String) : HttpRequest :=
  c.requestOf "POST" "/trust/batch"
    none (some (Json.obj [("factIds", Json.arr (fact_ids.map Json.str))]))

/-- `get_platform_stats`: GET /trust/stats. -/
def PurFactedClient.get_platform_stats (c : PurFactedClient) : HttpRequest :=
  c.requestOf "GET" "/trust/stats" none none

/-- `list_webhooks`: GET /webhooks. -/
def PurFactedClient.list_webhooks (c : PurFactedClient) : HttpRequest :=
  c.requestOf "GET" "/webhooks" none none

/-- `create_webhook`: POST /webhooks with body `{"url": url, "events": events}`. -/
def PurFactedClient.create_webhook (c : PurFactedClient) (url : String)
    (events : List String) : HttpRequest :=
  c.requestOf "POST" "/webhooks"
    none (some (Json.obj [("url", Json.str url),
                          ("events", Json.arr (events.map Json.str))]))

/-- `get_webhook`: GET /webhooks/{webhook_id}. -/
def PurFactedClient.get_webhook (c : PurFactedClient) (webhook_id : String) :
    HttpRequest :=
  c.requestOf "GET" ("/webhooks/" ++ webhook_id) none none

/-- `update_webhook`: PATCH /webhooks/{webhook_id}; each body field is
gated on `is not None`. -/
def PurFactedClient.update_webhook (c : PurFactedClient) (webhook_id : String)
    (url : Option String := none) (events : Option (List String) := none)
    (is_active : Option Bool := none) : HttpRequest :=
  let data : List (String × Json) := []
  let data := addIfNotNone data "url" (url.map Json.str)
  let data := addIfNotNone data "events"
    (events.map fun es => Json.arr (es.map Json.str))
  let data := addIfNotNone data "isActive" (is_active.map Json.bool)
  c.requestOf "PATCH" ("/webhooks/" ++ webhook_id) none (some (Json.obj data))

/-- `delete_webhook`: DELETE /webhooks/{webhook_id}. -/
def PurFactedClient.delete_webhook (c : PurFactedClient) (webhook_id : String) :
    HttpRequest :=
  c.requestOf "DELETE" ("/webhooks/" ++ webhook_id) none none

/-- The outgoing query parameters of a request (empty when none passed). -/
def HttpRequest.queryParams (r : HttpRequest) : List (String × Json) :=
  r.params.getD []

/-- The fields of a request's JSON object body (empty when no body). -/
def HttpRequest.bodyFields (r : HttpRequest) : List (String × Json) :=
  match r.json with
  | some (Json.obj fs) => fs
  | _ => []

/-- The spec's envelope shape for the `error` field: absent, or a JSON
object (on any other present value `_request`'s `error.get` is Python's
`AttributeError`, not the typed error). -/
def errorFieldOk (data : List (String × Json)) : Prop :=
  match dictGet data "error" with
  | none => True
  | some (Json.obj _) => True
  | some _ => False

theorem dictGet_dictSet_self (fields : List (String × Json)) (k : String)
    (v : Json) : dictGet (dictSet fields k v) k = some v := by
  induction fields with
  | nil => simp [dictSet, dictGet]
  | cons hd tl ih =>
      obtain ⟨k0, v0⟩ := hd
      by_cases h : k0 = k <;> simp [dictSet, dictGet, h, ih]

theorem dictGet_dictSet_ne (fields : List (String × Json)) (k k0 : String)
    (v : Json) (h : k ≠ k0) :
    dictGet (dictSet fields k0 v) k = dictGet fields k := by
  induction fields with
  | nil => simp [dictSet, dictGet, Ne.symm h]
  | cons hd tl ih =>
      obtain ⟨k1, v1⟩ := hd
      by_cases h1 : k1 = k0 <;> by_cases h2 : k1 = k <;>
        simp_all [dictSet, dictGet]

theorem dictGet_addIfTruthyStr_ne (params : List (String × Json))
    (k k0 : String) (x : Option String) (h : k ≠ k0) :
    dictGet (addIfTruthyStr params k0 x) k = dictGet params k := by
  cases x with
  | none => rfl
  | some s =>
      by_cases hs : s = "" <;> simp [addIfTruthyStr, hs, dictGet_dictSet_ne _ _ _ _ h]

theorem dictGet_addIfNotNone_ne (params : List (String × Json))
    (k k0 : String) (x : Option Json) (h : k ≠ k0) :
    dictGet (addIfNotNone params k0 x) k = dictGet params k := by
  cases x with
  | none => rfl
  | some v => simp [addIfNotNone, dictGet_dictSet_ne _ _ _ _ h]

theorem addIfTruthyStr_falsy (params : List (String × Json)) (k : String)
    (x : Option String) (h : x = none ∨ x = some "") :
    addIfTruthyStr params k x = params := by
  rcases h with h | h <;> subst h <;> simp [addIfTruthyStr]

/-- C1: when the parsed response envelope is truthy on `success`,
`_request` returns the full decoded envelope — the exact object the
transport produced, `data` payload included — and raises nothing. -/
theorem request_success_returns_envelope (c : PurFactedClient)
    (transport : HttpRequest → List (String × Json))
    (method endpoint : String) (params : Option (List (String × Json)))
    (json : Option Json)
    (h : truthyOpt (dictGet
        (transport (c.requestOf method endpoint params json)) "success") = true) :
    c.request transport method endpoint params json =
      RequestResult.ok
        (Json.obj (transport (c.requestOf method endpoint params json))) := by
  simp [PurFactedClient.request, handleEnvelope, h]

theorem request_success_returns_envelope_witness :
    PurFactedClient.request ⟨"key", "https://purfacted.com/api/v1"⟩
        (fun _ => [("success", Json.bool true), ("data", Json.num 42)])
        "GET" "/facts" none none =
      RequestResult.ok
        (Json.obj [("success", Json.bool true), ("data", Json.num 42)]) :=
  request_success_returns_envelope ⟨"key", "https://purfacted.com/api/v1"⟩
    (fun _ => [("success", Json.bool true), ("data", Json.num 42)])
    "GET" "/facts" none none rfl

/-- C2: on an envelope with `success: false`, `_request` raises a
`PurFactedError` whose code and message are exactly the `error` object's
fields when present and `"UNKNOWN"`/`"Unknown error"` for whichever is
absent (among them the case of a wholly absent `error`); no envelope is
returned. -/
theorem handleEnvelope_failure_error_fields (data : List (String × Json))
    (h : dictGet data "success" = some (Json.bool false)) :
    (∀ errFields, dictGet data "error" = some (Json.obj errFields) →
      handleEnvelope data =
        RequestResult.apiError
          ⟨(dictGet errFields "code").getD (Json.str "UNKNOWN"),
           (dictGet errFields "message").getD (Json.str "Unknown error")⟩) ∧
    (dictGet data "error" = none →
      handleEnvelope data =
        RequestResult.apiError ⟨Json.str "UNKNOWN", Json.str "Unknown error"⟩) := by
  constructor
  · intro errFields herr
    simp [handleEnvelope, h, truthyOpt, Json.truthy, dictGetD, herr]
  · intro herr
    simp [handleEnvelope, h, truthyOpt, Json.truthy, dictGetD, herr, dictGet]

theorem handleEnvelope_failure_error_fields_witness :
    handleEnvelope [("success", Json.bool false),
        ("error", Json.obj [("code", Json.str "NOT_FOUND")])] =
      RequestResult.apiError ⟨Json.str "NOT_FOUND", Json.str "Unknown error"⟩ :=
  (handleEnvelope_failure_error_fields
      [("success", Json.bool false),
       ("error", Json.obj [("code", Json.str "NOT_FOUND")])] rfl).1
    [("code", Json.str "NOT_FOUND")] rfl

/-- C4: `search_facts(q=None, status=None, category=None, sort=None)`
sends exactly the query keys `page` and `limit` (with their default
values); none of the omitted filters appears in the query. -/
theorem search_facts_all_none_query (c : PurFactedClient) :
    (c.search_facts none none none none).params =
      some [("page", Json.num 1), ("limit", Json.num 20)] := rfl

/-- C5: the PATCH body of `update_webhook` holds exactly the keys among
`url`, `events`, `isActive` whose argument was provided: each key looks
up to the provided value (so never to null), and each key left at `None`
is absent from the body. -/
theorem update_webhook_body_exact (c : PurFactedClient) (webhook_id : String)
    (url : Option String) (events : Option (List String))
    (is_active : Option Bool) :
    (c.update_webhook webhook_id url events is_active).bodyFields.map Prod.fst =
      (if url.isSome then ["url"] else []) ++
      (if events.isSome then ["events"] else []) ++
      (if is_active.isSome then ["isActive"] else []) ∧
    dictGet (c.update_webhook webhook_id url events is_active).bodyFields "url" =
      url.map Json.str ∧
    dictGet (c.update_webhook webhook_id url events is_active).bodyFields "events" =
      events.map (fun es => Json.arr (es.map Json.str)) ∧
    dictGet (c.update_webhook webhook_id url events is_active).bodyFields "isActive" =
      is_active.map Json.bool := by
  cases url <;> cases events <;> cases is_active <;>
    simp [PurFactedClient.update_webhook, PurFactedClient.requestOf,
      HttpRequest.bodyFields, addIfNotNone, dictSet, dictGet]

/-- C6: called without explicit pagination arguments, `search_facts` and
`get_sources` send `page=1, limit=20` and `get_categories` sends
`page=1, limit=50`. -/
theorem default_pagination (c : PurFactedClient) :
    (c.search_facts).params =
        some [("page", Json.num 1), ("limit", Json.num 20)] ∧
    (c.get_sources).params =
        some [("page", Json.num 1), ("limit", Json.num 20)] ∧
    (c.get_categories).params =
        some [("page", Json.num 1), ("limit", Json.num 50)] :=
  ⟨rfl, rfl, rfl⟩

/-- C9: a `PurFactedError` built from code `c` and message `m` exposes
them unchanged as its `code` and `message` attributes, and `str` of the
exception is `"c: m"`. -/
theorem purFactedError_attributes (c m : String) :
    (PurFactedError.mk (Json.str c) (Json.str m)).code = Json.str c ∧
    (PurFactedError.mk (Json.str c) (Json.str m)).message = Json.str m ∧
    (PurFactedError.mk (Json.str c) (Json.str m)).exceptionText =
      c ++ ": " ++ m :=
  ⟨rfl, rfl, rfl⟩

/-- C10: `update_webhook(webhook_id)` with all optional arguments left
at `None` still issues a PATCH to `/webhooks/{webhook_id}`, with the
empty JSON object as its body. -/
theorem update_webhook_all_none (c : PurFactedClient) (webhook_id : String) :
    (c.update_webhook webhook_id none none none).method = "PATCH" ∧
    (c.update_webhook webhook_id none none none).url =
      c.base_url ++ ("/webhooks/" ++ webhook_id) ∧
    (c.update_webhook webhook_id none none none).json =
      some (Json.obj []) :=
  ⟨rfl, rfl, rfl⟩

/-- C7: a client constructed with key `k` stores `k` and the default
base URL, and every request any operation issues carries the
`X-API-Key` and JSON `Content-Type` headers and targets the base URL
concatenated with the operation's endpoint path. -/
theorem client_headers_and_urls (k method endpoint : String)
    (params : Option (List (String × Json))) (json : Option Json)
    (c : PurFactedClient)
    (q status category sort fact_id_f source_type parent uurl : Option String)
    (mc : Option Int) (uevents : Option (List String)) (ia : Option Bool)
    (page limit : Int)
    (fact_id source_id category_id webhook_id wurl : String)
    (events fact_ids : List String) :
    (PurFactedClient.init k).api_key = k ∧
    (PurFactedClient.init k).base_url = "https://purfacted.com/api/v1" ∧
    (c.requestOf method endpoint params json).headers =
      [("X-API-Key", c.api_key), ("Content-Type", "application/json")] ∧
    (c.requestOf method endpoint params json).url = c.base_url ++ endpoint ∧
    (c.search_facts q status category sort page limit).headers =
      c.sessionHeaders ∧
    (c.search_facts q status category sort page limit).url =
      c.base_url ++ "/facts" ∧
    (c.get_fact fact_id).headers = c.sessionHeaders ∧
    (c.get_fact fact_id).url = c.base_url ++ ("/facts/" ++ fact_id) ∧
    (c.get_sources fact_id_f source_type mc page limit).headers =
      c.sessionHeaders ∧
    (c.get_sources fact_id_f source_type mc page limit).url =
      c.base_url ++ "/sources" ∧
    (c.get_source source_id).headers = c.sessionHeaders ∧
    (c.get_source source_id).url = c.base_url ++ ("/sources/" ++ source_id) ∧
    (c.get_categories q parent page limit).headers = c.sessionHeaders ∧
    (c.get_categories q parent page limit).url = c.base_url ++ "/categories" ∧
    (c.get_category category_id).headers = c.sessionHeaders ∧
    (c.get_category category_id).url =
      c.base_url ++ ("/categories/" ++ category_id) ∧
    (c.get_category_tree).headers = c.sessionHeaders ∧
    (c.get_category_tree).url = c.base_url ++ "/categories/tree" ∧
    (c.get_trust_metrics fact_id).headers = c.sessionHeaders ∧
    (c.get_trust_metrics fact_id).url = c.base_url ++ ("/trust/" ++ fact_id) ∧
    (c.batch_trust_metrics fact_ids).headers = c.sessionHeaders ∧
    (c.batch_trust_metrics fact_ids).url = c.base_url ++ "/trust/batch" ∧
    (c.get_platform_stats).headers = c.sessionHeaders ∧
    (c.get_platform_stats).url = c.base_url ++ "/trust/stats" ∧
    (c.list_webhooks).headers = c.sessionHeaders ∧
    (c.list_webhooks).url = c.base_url ++ "/webhooks" ∧
    (c.create_webhook wurl events).headers = c.sessionHeaders ∧
    (c.create_webhook wurl events).url = c.base_url ++ "/webhooks" ∧
    (c.get_webhook webhook_id).headers = c.sessionHeaders ∧
    (c.get_webhook webhook_id).url =
      c.base_url ++ ("/webhooks/" ++ webhook_id) ∧
    (c.update_webhook webhook_id uurl uevents ia).headers =
      c.sessionHeaders ∧
    (c.update_webhook webhook_id uurl uevents ia).url =
      c.base_url ++ ("/webhooks/" ++ webhook_id) ∧
    (c.delete_webhook webhook_id).headers = c.sessionHeaders ∧
    (c.delete_webhook webhook_id).url =
      c.base_url ++ ("/webhooks/" ++ webhook_id) ∧
    c.sessionHeaders =
      [("X-API-Key", c.api_key), ("Content-Type", "application/json")] :=
  ⟨rfl, rfl, rfl, rfl, rfl, rfl, rfl, rfl, rfl, rfl, rfl, rfl, rfl, rfl, rfl,
   rfl, rfl, rfl, rfl, rfl, rfl, rfl, rfl, rfl, rfl, rfl, rfl, rfl, rfl, rfl,
   rfl, rfl, rfl, rfl, rfl⟩

/-- C8: on an envelope whose `error` field is absent or an object, a
response is returned unchanged exactly when `success` is truthy; an
absent or falsy `success` (missing key, `null`, `0`, ...) raises a
`PurFactedError`, and is handled identically to the envelope with
`success` explicitly set to `false`. -/
theorem handleEnvelope_success_gate (data : List (String × Json))
    (h : errorFieldOk data) :
    (truthyOpt (dictGet data "success") = false →
      (∃ e, handleEnvelope data = RequestResult.apiError e) ∧
      handleEnvelope data =
        handleEnvelope (dictSet data "success" (Json.bool false))) ∧
    (handleEnvelope data = RequestResult.ok (Json.obj data) ↔
      truthyOpt (dictGet data "success") = true) := by
  have herr : dictGetD (dictSet data "success" (Json.bool false)) "error"
      (Json.obj []) = dictGetD data "error" (Json.obj []) := by
    simp [dictGetD, dictGet_dictSet_ne _ "error" "success" _ (by decide)]
  by_cases hs : truthyOpt (dictGet data "success") = true
  · constructor
    · intro hfalse
      rw [hs] at hfalse
      exact absurd hfalse (by simp)
    · simp [handleEnvelope, hs]
  · have hs' : truthyOpt (dictGet data "success") = false := by
      simpa using hs
    constructor
    · intro _
      constructor
      · rcases hget : dictGet data "error" with _ | v
        · exact ⟨⟨Json.str "UNKNOWN", Json.str "Unknown error"⟩,
            by simp [handleEnvelope, hs', dictGetD, hget, dictGet]⟩
        · cases v with
          | obj errFields =>
              exact ⟨⟨dictGetD errFields "code" (Json.str "UNKNOWN"),
                      dictGetD errFields "message" (Json.str "Unknown error")⟩,
                by simp [handleEnvelope, hs', dictGetD, hget]⟩
          | null => rw [errorFieldOk, hget] at h; exact absurd h (by simp)
          | bool b => rw [errorFieldOk, hget] at h; exact absurd h (by simp)
          | num n => rw [errorFieldOk, hget] at h; exact absurd h (by simp)
          | str s => rw [errorFieldOk, hget] at h; exact absurd h (by simp)
          | arr items => rw [errorFieldOk, hget] at h; exact absurd h (by simp)
      · rw [handleEnvelope, handleEnvelope, hs', herr,
          dictGet_dictSet_self data "success" (Json.bool false)]
        simp [truthyOpt, Json.truthy]
    · rw [handleEnvelope, hs']
      simp only [if_false, Bool.false_eq_true]
      constructor
      · intro hok
        exact absurd hok (by split <;> simp)
      · intro hh
        exact absurd hh (by simp)

theorem handleEnvelope_success_gate_witness :
    (∃ e, handleEnvelope [("data", Json.num 7)] = RequestResult.apiError e) ∧
    handleEnvelope [("data", Json.num 7)] =
      handleEnvelope (dictSet [("data", Json.num 7)] "success" (Json.bool false)) :=
  (handleEnvelope_success_gate [("data", Json.num 7)] True.intro).1 rfl

theorem search_facts_query (c : PurFactedClient)
    (q status category sort : Option String) (page limit : Int) :
    (c.search_facts q status category sort page limit).queryParams =
      addIfTruthyStr (addIfTruthyStr (addIfTruthyStr (addIfTruthyStr
        [("page", Json.num page), ("limit", Json.num limit)] "q" q)
        "status" status) "category" category) "sort" sort := rfl

theorem get_sources_query (c : PurFactedClient)
    (fact_id source_type : Option String) (mc : Option Int)
    (page limit : Int) :
    (c.get_sources fact_id source_type mc page limit).queryParams =
      addIfNotNone (addIfTruthyStr (addIfTruthyStr
        [("page", Json.num page), ("limit", Json.num limit)] "factId" fact_id)
        "type" source_type) "minCredibility" (mc.map Json.num) := rfl

theorem get_categories_query (c : PurFactedClient)
    (q parent : Option String) (page limit : Int) :
    (c.get_categories q parent page limit).queryParams =
      addIfTruthyStr (addIfTruthyStr
        [("page", Json.num page), ("limit", Json.num limit)] "q" q)
        "parent" parent := rfl

theorem update_webhook_body (c : PurFactedClient) (webhook_id : String)
    (url : Option String) (events : Option (List String))
    (is_active : Option Bool) :
    (c.update_webhook webhook_id url events is_active).bodyFields =
      addIfNotNone (addIfNotNone (addIfNotNone [] "url" (url.map Json.str))
        "events" (events.map fun es => Json.arr (es.map Json.str)))
        "isActive" (is_active.map Json.bool) := rfl

theorem addIfNotNone_none (params : List (String × Json)) (k : String) :
    addIfNotNone params k none = params := rfl

/-- C3 counterexample: the claim says a falsy optional argument is
omitted, but `update_webhook` gates its fields on `is not None` only:
with the falsy `url=""` the outgoing PATCH body carries `url` as an
empty value. -/
theorem update_webhook_sends_falsy_url :
    (PurFactedClient.update_webhook ⟨"key", "https://purfacted.com/api/v1"⟩
        "w1" (some "") none none).json =
      some (Json.obj [("url", Json.str "")]) := rfl

/-- C3 amended: every optional argument left at `None` is omitted from
the outgoing query or body, and the truthiness-gated string filters
(`q`, `status`, `category`, `sort` of search_facts, `factId`/`type` of
get_sources, `q`/`parent` of get_categories) are omitted also when
passed a falsy empty string; but `min_credibility` of get_sources and
the fields of update_webhook are gated on `is not None` only, so an
explicitly provided falsy value (such as `""`, `0` or `False`) is sent
for those. -/
theorem optional_params_omitted (c : PurFactedClient)
    (q status category sort fact_id source_type parent uurl : Option String)
    (mc : Option Int) (uevents : Option (List String)) (ia : Option Bool)
    (page limit : Int) (webhook_id : String) :
    ((q = none ∨ q = some "") →
      dictGet (c.search_facts q status category sort page limit).queryParams
        "q" = none) ∧
    ((status = none ∨ status = some "") →
      dictGet (c.search_facts q status category sort page limit).queryParams
        "status" = none) ∧
    ((category = none ∨ category = some "") →
      dictGet (c.search_facts q status category sort page limit).queryParams
        "category" = none) ∧
    ((sort = none ∨ sort = some "") →
      dictGet (c.search_facts q status category sort page limit).queryParams
        "sort" = none) ∧
    ((fact_id = none ∨ fact_id = some "") →
      dictGet (c.get_sources fact_id source_type mc page limit).queryParams
        "factId" = none) ∧
    ((source_type = none ∨ source_type = some "") →
      dictGet (c.get_sources fact_id source_type mc page limit).queryParams
        "type" = none) ∧
    (mc = none →
      dictGet (c.get_sources fact_id source_type mc page limit).queryParams
        "minCredibility" = none) ∧
    ((q = none ∨ q = some "") →
      dictGet (c.get_categories q parent page limit).queryParams "q" = none) ∧
    ((parent = none ∨ parent = some "") →
      dictGet (c.get_categories q parent page limit).queryParams
        "parent" = none) ∧
    (uurl = none →
      dictGet (c.update_webhook webhook_id uurl uevents ia).bodyFields
        "url" = none) ∧
    (uevents = none →
      dictGet (c.update_webhook webhook_id uurl uevents ia).bodyFields
        "events" = none) ∧
    (ia = none →
      dictGet (c.update_webhook webhook_id uurl uevents ia).bodyFields
        "isActive" = none) := by
  refine ⟨fun h => ?_, fun h => ?_, fun h => ?_, fun h => ?_, fun h => ?_,
    fun h => ?_, fun h => ?_, fun h => ?_, fun h => ?_, fun h => ?_,
    fun h => ?_, fun h => ?_⟩
  · rw [search_facts_query,
      dictGet_addIfTruthyStr_ne _ _ _ _ (by decide),
      dictGet_addIfTruthyStr_ne _ _ _ _ (by decide),
      dictGet_addIfTruthyStr_ne _ _ _ _ (by decide),
      addIfTruthyStr_falsy _ _ _ h]
    rfl
  · rw [search_facts_query,
      dictGet_addIfTruthyStr_ne _ _ _ _ (by decide),
      dictGet_addIfTruthyStr_ne _ _ _ _ (by decide),
      addIfTruthyStr_falsy _ _ _ h,
      dictGet_addIfTruthyStr_ne _ _ _ _ (by decide)]
    rfl
  · rw [search_facts_query,
      dictGet_addIfTruthyStr_ne _ _ _ _ (by decide),
      addIfTruthyStr_falsy _ _ _ h,
      dictGet_addIfTruthyStr_ne _ _ _ _ (by decide),
      dictGet_addIfTruthyStr_ne _ _ _ _ (by decide)]
    rfl
  · rw [search_facts_query, addIfTruthyStr_falsy _ _ _ h,
      dictGet_addIfTruthyStr_ne _ _ _ _ (by decide),
      dictGet_addIfTruthyStr_ne _ _ _ _ (by decide),
      dictGet_addIfTruthyStr_ne _ _ _ _ (by decide)]
    rfl
  · rw [get_sources_query,
      dictGet_addIfNotNone_ne _ _ _ _ (by decide),
      dictGet_addIfTruthyStr_ne _ _ _ _ (by decide),
      addIfTruthyStr_falsy _ _ _ h]
    rfl
  · rw [get_sources_query,
      dictGet_addIfNotNone_ne _ _ _ _ (by decide),
      addIfTruthyStr_falsy _ _ _ h,
      dictGet_addIfTruthyStr_ne _ _ _ _ (by decide)]
    rfl
  · subst h
    rw [get_sources_query]
    rw [show (none : Option Int).map Json.num = none from rfl, addIfNotNone_none,
      dictGet_addIfTruthyStr_ne _ _ _ _ (by decide),
      dictGet_addIfTruthyStr_ne _ _ _ _ (by decide)]
    rfl
  · rw [get_categories_query,
      dictGet_addIfTruthyStr_ne _ _ _ _ (by decide),
      addIfTruthyStr_falsy _ _ _ h]
    rfl
  · rw [get_categories_query, addIfTruthyStr_falsy _ _ _ h,
      dictGet_addIfTruthyStr_ne _ _ _ _ (by decide)]
    rfl
  · subst h
    rw [update_webhook_body,
      dictGet_addIfNotNone_ne _ _ _ _ (by decide),
      dictGet_addIfNotNone_ne _ _ _ _ (by decide)]
    rfl
  · subst h
    rw [update_webhook_body,
      dictGet_addIfNotNone_ne _ _ _ _ (by decide),
      show (none : Option (List String)).map
        (fun es => Json.arr (es.map Json.str)) = none from rfl,
      addIfNotNone_none,
      dictGet_addIfNotNone_ne _ _ _ _ (by decide)]
    rfl
  · subst h
    rw [update_webhook_body,
      show (none : Option Bool).map Json.bool = none from rfl,
      addIfNotNone_none,
      dictGet_addIfNotNone_ne _ _ _ _ (by decide),
      dictGet_addIfNotNone_ne _ _ _ _ (by decide)]
    rfl

theorem optional_params_omitted_witness :
    dictGet (HttpRequest.queryParams
        (PurFactedClient.search_facts ⟨"key", "https://purfacted.com/api/v1"⟩
          none none none none 1 20)) "q" = none :=
  (optional_params_omitted ⟨"key", "https://purfacted.com/api/v1"⟩
      none none none none none none none none none none none 1 20 "w1").1
    (Or.inl rfl)
